import Mathlib

/-
Verification of the opkssh login command (commands/login.go).

The Go code is shallowly embedded as pure Lean functions over an oracle
environment `Env` that models the filesystem (os.Open / os.ReadFile /
os.WriteFile / os.UserHomeDir) and the external collaborators
(openpubkey client, sshcert, golang.org/x/crypto/ssh, pem).  File writes
are recorded as a ghost trace of `WriteEvent`s (one event per attempted
os.WriteFile call), so that claims about what the installer does or does
not touch can be stated as properties of the trace.
-/

namespace Opkssh

/-- Byte strings (Go `[]byte`) are modelled as lists of characters. -/
abbrev Bytes := List Char

/-- Outcome of an `os.Open` call: success, failure with `os.ErrNotExist`,
or failure with any other error (e.g. permission denied). -/
inductive OpenOutcome where
  | success
  | notExist
  | otherError
  deriving DecidableEq, Repr

/-- One attempted `os.WriteFile(path, data, perm)` call. -/
structure WriteEvent where
  path : String
  data : Bytes
  perm : Nat
  deriving DecidableEq, Repr

/-- An unsigned SSH certificate as built by `sshcert.New(pkt, principals)`:
the principal list passed through by the caller, plus an abstract body
determined by the PK token. -/
structure UnsignedCert where
  principals : List String
  body : Nat
  deriving DecidableEq, Repr

/-- A signed SSH certificate: the certificate contents plus a signature. -/
structure SignedCert where
  principals : List String
  body : Nat
  sig : Nat
  deriving DecidableEq, Repr

/-- An `ssh.Signer` restricted by `ssh.NewSignerWithAlgorithms` to a fixed
list of signature algorithms. -/
structure RestrictedSigner where
  base : Nat
  algs : List String
  deriving DecidableEq, Repr

/-- Oracle environment: the filesystem state and the results returned by
every external collaborator called from login.go.  Opaque values (keys,
PK tokens, certificate bodies, signatures, pem blocks) are modelled as
`Nat` handles; errors as their Go message strings. -/
structure Env where
  /-- `os.UserHomeDir()` -/
  homeDirRes : Except String String
  /-- outcome of `os.Open(path)` -/
  openRes : String → OpenOutcome
  /-- `os.ReadFile(path)` -/
  readFileRes : String → Except String Bytes
  /-- `os.WriteFile(path, _, _)`: `none` means success, `some e` failure `e` -/
  writeRes : String → Option String
  /-- `ssh.ParseAuthorizedKey(bytes)`, projected to its comment result -/
  parseAuthorizedKeyRes : Bytes → Except String String
  /-- `util.GenKeyPair(alg)` -/
  genKeyPairRes : String → Except String Nat
  /-- `client.OidcAuth(ctx, signer, alg, claims, gqFlag)` -/
  oidcAuthRes : Nat → String → Bool → Except String Nat
  /-- `sshcert.New(pkt, principals)`, projected to the certificate body
  determined by the PK token (principals pass through unchanged) -/
  newCertRes : Nat → Except String Nat
  /-- `ssh.NewSignerFromSigner(signer)` -/
  newSignerFromSignerRes : Nat → Except String Nat
  /-- whether `ssh.NewSignerWithAlgorithms(base, algs)` succeeds for `base` -/
  newSignerWithAlgorithmsRes : Nat → Except String Unit
  /-- `cert.SignCert(signer)`: signature over the body, given the signer
  handle and the algorithm list the signer is restricted to -/
  signRes : Nat → Nat → List String → Except String Nat
  /-- `ssh.MarshalAuthorizedKey(cert)` -/
  marshalAuthorizedKeyRes : SignedCert → Bytes
  /-- `ssh.MarshalPrivateKey(signer, comment)` -/
  marshalPrivateKeyRes : Nat → String → Except String Nat
  /-- `pem.EncodeToMemory(block)` -/
  pemEncodeRes : Nat → Bytes

/-- The `ssh.KeyAlgoECDSA256` constant from golang.org/x/crypto/ssh:
the SSH signature algorithm name for ECDSA over the NIST P-256 curve. -/
def keyAlgoECDSA256 : String := "ecdsa-sha2-nistp256"

/-- The `jwa.ES256` algorithm identifier fixed by `Login`. -/
def es256 : String := "ES256"

/-- The ownership marker comment written by the tool. -/
def ownershipMarker : String := "openpubkey"

/-- The fixed, ordered candidate basename list iterated by
`writeKeysToSSHDir` (line 98 of login.go). -/
def defaultSSHKeyFilenames : List String := ["id_ecdsa", "id_dsa"]

/-- `fileExists` (login.go lines 143-146): opens the path and reports
`true` unless the error is `os.ErrNotExist`. -/
def fileExists (env : Env) (fPath : String) : Bool :=
  match env.openRes fPath with
  | OpenOutcome.notExist => false
  | _ => true

/-- `writeKeys` (login.go lines 129-141): write the secret key with mode
0600; if that fails return the error; otherwise append " openpubkey" to
the certificate bytes and write the public key file with mode 0777.
Returns the trace of attempted writes together with the Go result. -/
def writeKeys (env : Env) (seckeyPath pubkeyPath : String)
    (seckeySshPem certBytes : Bytes) : List WriteEvent × Except String Unit :=
  match env.writeRes seckeyPath with
  | some e => ([⟨seckeyPath, seckeySshPem, 0o600⟩], Except.error e)
  | none =>
    let pubBytes := certBytes ++ (" openpubkey").data
    match env.writeRes pubkeyPath with
    | some e =>
      ([⟨seckeyPath, seckeySshPem, 0o600⟩, ⟨pubkeyPath, pubBytes, 0o777⟩],
        Except.error e)
    | none =>
      ([⟨seckeyPath, seckeySshPem, 0o600⟩, ⟨pubkeyPath, pubBytes, 0o777⟩],
        Except.ok ())

/-- The candidate loop of `writeKeysToSSHDir` (login.go lines 98-126),
parametrised by the remaining candidate basenames.  For each candidate:
if the private path does not exist, write there; else if the public path
does not exist, continue; else read and parse the public file (continue
on either failure) and write there exactly when the comment equals
"openpubkey"; otherwise continue.  An exhausted list yields the
"no default ssh key file free for openpubkey" error. -/
def installLoop (env : Env) (sshPath : String) (seckeySshPem certBytes : Bytes) :
    List String → List WriteEvent × Except String Unit
  | [] => ([], Except.error "no default ssh key file free for openpubkey")
  | keyFilename :: rest =>
    let seckeyPath := sshPath ++ "/" ++ keyFilename
    let pubkeyPath := seckeyPath ++ ".pub"
    if fileExists env seckeyPath = false then
      writeKeys env seckeyPath pubkeyPath seckeySshPem certBytes
    else if fileExists env pubkeyPath = false then
      installLoop env sshPath seckeySshPem certBytes rest
    else
      match env.readFileRes pubkeyPath with
      | Except.error _ => installLoop env sshPath seckeySshPem certBytes rest
      | Except.ok sshPubkey =>
        match env.parseAuthorizedKeyRes sshPubkey with
        | Except.error _ => installLoop env sshPath seckeySshPem certBytes rest
        | Except.ok comment =>
          if comment = "openpubkey" then
            writeKeys env seckeyPath pubkeyPath seckeySshPem certBytes
          else
            installLoop env sshPath seckeySshPem certBytes rest

/-- `writeKeysToSSHDir` (login.go lines 85-127): resolve the home
directory, join ".ssh", and run the candidate loop over the fixed list. -/
def writeKeysToSSHDir (env : Env) (seckeySshPem certBytes : Bytes) :
    List WriteEvent × Except String Unit :=
  match env.homeDirRes with
  | Except.error e => ([], Except.error e)
  | Except.ok homePath =>
    installLoop env (homePath ++ "/.ssh") seckeySshPem certBytes
      defaultSSHKeyFilenames

/-- `ssh.NewSignerWithAlgorithms(base, algs)`: on success the resulting
signer is restricted to exactly the given algorithm list. -/
def newSignerWithAlgorithms (env : Env) (base : Nat) (algs : List String) :
    Except String RestrictedSigner :=
  match env.newSignerWithAlgorithmsRes base with
  | Except.error e => Except.error e
  | Except.ok _ => Except.ok ⟨base, algs⟩

/-- `cert.SignCert(signer)`: signs the certificate with the restricted
signer, keeping the certificate contents (principals, body) unchanged. -/
def signCert (env : Env) (c : UnsignedCert) (s : RestrictedSigner) :
    Except String SignedCert :=
  match env.signRes s.base c.body s.algs with
  | Except.error e => Except.error e
  | Except.ok sig => Except.ok ⟨c.principals, c.body, sig⟩

/-- `createSSHCert` (login.go lines 49-83).  The Go function returns
`(certBytes, seckeySshBytes)`; the model additionally returns the signed
certificate itself as a ghost first component so that its contents (in
particular the principal list) can be observed in specifications.
`certBytes` is `ssh.MarshalAuthorizedKey` output truncated by one byte
(`certBytes[:len(certBytes)-1]`, line 74). -/
def createSSHCert (env : Env) (signer : Nat) (alg : String) (gqFlag : Bool)
    (principals : List String) :
    Except String (SignedCert × Bytes × Bytes) :=
  match env.oidcAuthRes signer alg gqFlag with
  | Except.error e => Except.error e
  | Except.ok pkt =>
    match env.newCertRes pkt with
    | Except.error e => Except.error e
    | Except.ok body =>
      let cert : UnsignedCert := ⟨principals, body⟩
      match env.newSignerFromSignerRes signer with
      | Except.error e => Except.error e
      | Except.ok sshSigner =>
        match newSignerWithAlgorithms env sshSigner [keyAlgoECDSA256] with
        | Except.error e => Except.error e
        | Except.ok signerMas =>
          match signCert env cert signerMas with
          | Except.error e => Except.error e
          | Except.ok sshCert =>
            let certBytes0 := env.marshalAuthorizedKeyRes sshCert
            let certBytes := certBytes0.take (certBytes0.length - 1)
            match env.marshalPrivateKeyRes signer "openpubkey cert" with
            | Except.error e => Except.error e
            | Except.ok seckeySsh =>
              Except.ok (sshCert, certBytes, env.pemEncodeRes seckeySsh)

/-- The hardcoded principal list of `Login` (login.go line 22). -/
def loginPrincipals : List String := []

/-- `Login` (login.go lines 19-47): generate an ES256 keypair, create the
SSH certificate with the empty principal list and gq flag false, and
install the key material.  Returns the ghost write trace together with
the Go result; each error is wrapped as in the Go source. -/
def Login (env : Env) : List WriteEvent × Except String Unit :=
  match env.genKeyPairRes es256 with
  | Except.error e => ([], Except.error ("failed to generate keypair: " ++ e))
  | Except.ok signer =>
    match createSSHCert env signer es256 false loginPrincipals with
    | Except.error e => ([], Except.error ("failed to generate SSH cert: " ++ e))
    | Except.ok (_, certBytes, seckeySshPem) =>
      match writeKeysToSSHDir env seckeySshPem certBytes with
      | (events, Except.error e) =>
        (events, Except.error ("failed to write SSH keys to filesystem: " ++ e))
      | (events, Except.ok _) => (events, Except.ok ())

/-- Owner permission triad of a Unix mode. -/
def ownerBits (m : Nat) : Nat := (m / 64) % 8

/-- Group permission triad of a Unix mode. -/
def groupBits (m : Nat) : Nat := (m / 8) % 8

/-- Other (world) permission triad of a Unix mode. -/
def otherBits (m : Nat) : Nat := m % 8

/-! ### Helper lemmas -/

/-- A candidate slot whose private file exists is skipped (the loop moves
on to the remaining candidates with nothing written at this step) when
the public file is missing, unreadable, unparseable, or carries a
comment other than "openpubkey". -/
theorem installLoop_skip_step (env : Env) (dir : String) (pem cert : Bytes)
    (c : String) (rest : List String)
    (hsec : fileExists env (dir ++ "/" ++ c) = true)
    (hskip : fileExists env ((dir ++ "/" ++ c) ++ ".pub") = false ∨
      (∃ e, env.readFileRes ((dir ++ "/" ++ c) ++ ".pub") = Except.error e) ∨
      (∃ bs e, env.readFileRes ((dir ++ "/" ++ c) ++ ".pub") = Except.ok bs ∧
        env.parseAuthorizedKeyRes bs = Except.error e) ∨
      (∃ bs cm, env.readFileRes ((dir ++ "/" ++ c) ++ ".pub") = Except.ok bs ∧
        env.parseAuthorizedKeyRes bs = Except.ok cm ∧ cm ≠ "openpubkey")) :
    installLoop env dir pem cert (c :: rest) =
      installLoop env dir pem cert rest := by
  rcases hskip with hpub | ⟨e, hread⟩ | ⟨bs, e, hread, hparse⟩ |
      ⟨bs, cm, hread, hparse, hcm⟩
  · simp [installLoop, hsec, hpub]
  · simp [installLoop, hsec, hread]
  · simp [installLoop, hsec, hread, hparse]
  · simp [installLoop, hsec, hread, hparse, hcm]

/-- The candidate loop either returns the result of a single `writeKeys`
call on the slot of one of its candidates — with the public path equal
to the private path plus ".pub" — or exhausts the list and returns the
no-free-slot error with an empty write trace. -/
theorem installLoop_cases (env : Env) (dir : String) (pem cert : Bytes) :
    ∀ cs : List String,
      (∃ c ∈ cs, installLoop env dir pem cert cs =
        writeKeys env (dir ++ "/" ++ c) ((dir ++ "/" ++ c) ++ ".pub") pem cert) ∨
      installLoop env dir pem cert cs =
        ([], Except.error "no default ssh key file free for openpubkey") := by
  intro cs
  induction cs with
  | nil => exact Or.inr rfl
  | cons c rest ih =>
    by_cases h1 : fileExists env (dir ++ "/" ++ c) = false
    · exact Or.inl ⟨c, by simp, by simp [installLoop, h1]⟩
    · rw [Bool.not_eq_false] at h1
      have step :
          (installLoop env dir pem cert (c :: rest) =
            installLoop env dir pem cert rest) ∨
          installLoop env dir pem cert (c :: rest) =
            writeKeys env (dir ++ "/" ++ c) ((dir ++ "/" ++ c) ++ ".pub")
              pem cert := by
        by_cases h2 : fileExists env ((dir ++ "/" ++ c) ++ ".pub") = false
        · exact Or.inl (installLoop_skip_step env dir pem cert c rest h1
            (Or.inl h2))
        · cases h3 : env.readFileRes ((dir ++ "/" ++ c) ++ ".pub") with
          | error e =>
            exact Or.inl (installLoop_skip_step env dir pem cert c rest h1
              (Or.inr (Or.inl ⟨e, h3⟩)))
          | ok bs =>
            cases h4 : env.parseAuthorizedKeyRes bs with
            | error e =>
              exact Or.inl (installLoop_skip_step env dir pem cert c rest h1
                (Or.inr (Or.inr (Or.inl ⟨bs, e, h3, h4⟩))))
            | ok cm =>
              by_cases h5 : cm = "openpubkey"
              · rw [Bool.not_eq_false] at h2
                exact Or.inr (by simp [installLoop, h1, h2, h3, h4, h5])
              · exact Or.inl (installLoop_skip_step env dir pem cert c rest h1
                  (Or.inr (Or.inr (Or.inr ⟨bs, cm, h3, h4, h5⟩))))
      rcases step with hstep | hstep
      · rw [hstep]
        rcases ih with ⟨c', hc', h⟩ | h
        · exact Or.inl ⟨c', by simp [hc'], h⟩
        · exact Or.inr h
      · exact Or.inl ⟨c, by simp, hstep⟩

/-- Every write attempted by `writeKeys` targets one of its two path
arguments. -/
theorem writeKeys_paths (env : Env) (sp pp : String) (pem cert : Bytes) :
    ∀ ev ∈ (writeKeys env sp pp pem cert).1, ev.path = sp ∨ ev.path = pp := by
  intro ev hev
  unfold writeKeys at hev
  cases h1 : env.writeRes sp <;> simp [h1] at hev
  · cases h2 : env.writeRes pp <;> simp [h2] at hev <;>
      rcases hev with rfl | rfl <;> simp
  · rw [hev]
    simp

/-- Dropping the final appended character by truncating to length - 1. -/
theorem take_length_sub_one_append (l : Bytes) (ch : Char) :
    (l ++ [ch]).take ((l ++ [ch]).length - 1) = l := by
  simp

/-- `createSSHCert` either fails, or succeeds with a certificate whose
principal list is exactly the one supplied by the caller. -/
theorem createSSHCert_shape (env : Env) (signer : Nat) (alg : String)
    (gq : Bool) (ps : List String) :
    (∃ e, createSSHCert env signer alg gq ps = Except.error e) ∨
    (∃ body sig cb pem2, createSSHCert env signer alg gq ps =
      Except.ok (⟨ps, body, sig⟩, cb, pem2)) := by
  cases h1 : env.oidcAuthRes signer alg gq with
  | error e => exact Or.inl ⟨e, by simp [createSSHCert, h1]⟩
  | ok pkt =>
  cases h2 : env.newCertRes pkt with
  | error e => exact Or.inl ⟨e, by simp [createSSHCert, h1, h2]⟩
  | ok body =>
  cases h3 : env.newSignerFromSignerRes signer with
  | error e => exact Or.inl ⟨e, by simp [createSSHCert, h1, h2, h3]⟩
  | ok s =>
  cases h4 : env.newSignerWithAlgorithmsRes s with
  | error e =>
    exact Or.inl ⟨e, by
      simp [createSSHCert, newSignerWithAlgorithms, h1, h2, h3, h4]⟩
  | ok u =>
  cases h5 : env.signRes s body [keyAlgoECDSA256] with
  | error e =>
    exact Or.inl ⟨e, by
      simp [createSSHCert, newSignerWithAlgorithms, signCert, h1, h2, h3,
        h4, h5]⟩
  | ok sig =>
  cases h6 : env.marshalPrivateKeyRes signer "openpubkey cert" with
  | error e =>
    exact Or.inl ⟨e, by
      simp [createSSHCert, newSignerWithAlgorithms, signCert, h1, h2, h3,
        h4, h5, h6]⟩
  | ok blk =>
    exact Or.inr ⟨body, sig,
      (env.marshalAuthorizedKeyRes ⟨ps, body, sig⟩).take
        ((env.marshalAuthorizedKeyRes ⟨ps, body, sig⟩).length - 1),
      env.pemEncodeRes blk, by
      simp [createSSHCert, newSignerWithAlgorithms, signCert, h1, h2, h3,
        h4, h5, h6]⟩

/-! ### Witness environments -/

/-- Baseline oracle environment in which every external call succeeds and
no candidate file exists. -/
def okEnv : Env where
  homeDirRes := Except.ok "/home/u"
  openRes := fun _ => OpenOutcome.notExist
  readFileRes := fun _ => Except.ok []
  writeRes := fun _ => none
  parseAuthorizedKeyRes := fun _ => Except.ok "openpubkey"
  genKeyPairRes := fun _ => Except.ok 1
  oidcAuthRes := fun _ _ _ => Except.ok 2
  newCertRes := fun _ => Except.ok 3
  newSignerFromSignerRes := fun _ => Except.ok 4
  newSignerWithAlgorithmsRes := fun _ => Except.ok ()
  signRes := fun _ _ _ => Except.ok 5
  marshalAuthorizedKeyRes := fun _ => ("cert".data ++ ['\n'])
  marshalPrivateKeyRes := fun _ _ => Except.ok 6
  pemEncodeRes := fun _ => "PEM".data

/-- Environment where both candidate slots exist and their public files
parse with the foreign comment "Openpubkey" (one character of case away
from the marker). -/
def envForeign : Env :=
  { okEnv with
    openRes := fun _ => OpenOutcome.success
    readFileRes := fun _ => Except.ok "k".data
    parseAuthorizedKeyRes := fun _ => Except.ok "Openpubkey" }

/-- Environment where both candidate slots exist but reading any public
file fails with an I/O error. -/
def envReadFail : Env :=
  { okEnv with
    openRes := fun _ => OpenOutcome.success
    readFileRes := fun _ => Except.error "permission denied" }

/-- Environment where opening the first private key fails with a
non-not-exist error and nothing else exists. -/
def envPermDenied : Env :=
  { okEnv with
    openRes := fun p =>
      if p = "/home/u/.ssh/id_ecdsa" then OpenOutcome.otherError
      else OpenOutcome.notExist }

/-- Environment where writing the first private key path fails and every
candidate slot is free. -/
def envWriteFail : Env :=
  { okEnv with
    writeRes := fun p =>
      if p = "/home/u/.ssh/id_ecdsa" then some "disk full" else none }

/-- Environment where certificate signing fails. -/
def envSignFail : Env :=
  { okEnv with signRes := fun _ _ _ => Except.error "signing denied" }

/-! ### Claims -/

/-- C1: for a candidate slot where both files exist and the public file
parses, the installer overwrites that slot exactly when the parsed
comment equals "openpubkey" by strict whole-field string equality; any
other comment makes it skip to the next candidate without writing. -/
theorem C1_overwrite_iff_marker (env : Env) (dir : String) (pem cert : Bytes)
    (c : String) (rest : List String) (bs : Bytes) (comment : String)
    (hsec : fileExists env (dir ++ "/" ++ c) = true)
    (hpub : fileExists env ((dir ++ "/" ++ c) ++ ".pub") = true)
    (hread : env.readFileRes ((dir ++ "/" ++ c) ++ ".pub") = Except.ok bs)
    (hparse : env.parseAuthorizedKeyRes bs = Except.ok comment) :
    (comment = "openpubkey" →
      installLoop env dir pem cert (c :: rest) =
        writeKeys env (dir ++ "/" ++ c) ((dir ++ "/" ++ c) ++ ".pub") pem cert) ∧
    (comment ≠ "openpubkey" →
      installLoop env dir pem cert (c :: rest) =
        installLoop env dir pem cert rest) := by
  constructor <;> intro h <;> simp [installLoop, hsec, hpub, hread, hparse, h]

/-- C1 witness: with both slots occupied and comment "Openpubkey"
(differing from the marker only in case), the first candidate is
skipped. -/
theorem C1_overwrite_iff_marker_witness :
    installLoop envForeign "/home/u/.ssh" [] [] ["id_ecdsa", "id_dsa"] =
      installLoop envForeign "/home/u/.ssh" [] [] ["id_dsa"] :=
  (C1_overwrite_iff_marker envForeign "/home/u/.ssh" [] [] "id_ecdsa"
    ["id_dsa"] "k".data "Openpubkey" (by decide) (by decide) rfl rfl).2
    (by decide)

/-- C5: for a candidate slot whose private file exists, a missing public
file, a failed read, or a failed parse never counts as safe to
overwrite: the installer writes nothing at that slot and continues with
the remaining candidates. -/
theorem C5_inconclusive_slot_skipped (env : Env) (dir : String)
    (pem cert : Bytes) (c : String) (rest : List String)
    (hsec : fileExists env (dir ++ "/" ++ c) = true)
    (hskip : fileExists env ((dir ++ "/" ++ c) ++ ".pub") = false ∨
      (∃ e, env.readFileRes ((dir ++ "/" ++ c) ++ ".pub") = Except.error e) ∨
      (∃ bs e, env.readFileRes ((dir ++ "/" ++ c) ++ ".pub") = Except.ok bs ∧
        env.parseAuthorizedKeyRes bs = Except.error e)) :
    installLoop env dir pem cert (c :: rest) =
      installLoop env dir pem cert rest := by
  apply installLoop_skip_step env dir pem cert c rest hsec
  rcases hskip with h | h | h
  · exact Or.inl h
  · exact Or.inr (Or.inl h)
  · exact Or.inr (Or.inr (Or.inl h))

/-- C5 witness: with both slots present but unreadable public files, the
first candidate is skipped rather than claimed or fatal. -/
theorem C5_inconclusive_slot_skipped_witness :
    installLoop envReadFail "/home/u/.ssh" [] [] ["id_ecdsa", "id_dsa"] =
      installLoop envReadFail "/home/u/.ssh" [] [] ["id_dsa"] :=
  C5_inconclusive_slot_skipped envReadFail "/home/u/.ssh" [] [] "id_ecdsa"
    ["id_dsa"] (by decide) (Or.inr (Or.inl ⟨"permission denied", rfl⟩))

/-- C9: `fileExists` reports true for any path whose open attempt fails
with an error other than not-exist, it reports false exactly when the
open error is not-exist, and an existing-but-unopenable private key file
is treated as occupied: the loop skips it (here in the orphaned-slot
case) instead of claiming it through the free-slot branch. -/
theorem C9_fileExists_conservative (env : Env) (p : String) :
    (env.openRes p = OpenOutcome.otherError → fileExists env p = true) ∧
    (fileExists env p = false ↔ env.openRes p = OpenOutcome.notExist) ∧
    (∀ dir pem cert c rest,
      env.openRes (dir ++ "/" ++ c) = OpenOutcome.otherError →
      fileExists env ((dir ++ "/" ++ c) ++ ".pub") = false →
      installLoop env dir pem cert (c :: rest) =
        installLoop env dir pem cert rest) := by
  refine ⟨fun h => by simp [fileExists, h], ?_, ?_⟩
  · unfold fileExists
    cases h : env.openRes p <;> simp [h]
  · intro dir pem cert c rest hopen hpub
    exact installLoop_skip_step env dir pem cert c rest
      (by simp [fileExists, hopen]) (Or.inl hpub)

/-- C9 witness: with the first private key unopenable (permission
denied) and its public file absent, `fileExists` reports it as existing
and the loop moves on to the second candidate. -/
theorem C9_fileExists_conservative_witness :
    fileExists envPermDenied "/home/u/.ssh/id_ecdsa" = true ∧
    (fileExists envPermDenied "/home/u/.ssh/id_ecdsa" = false ↔
      envPermDenied.openRes "/home/u/.ssh/id_ecdsa" = OpenOutcome.notExist) ∧
    installLoop envPermDenied "/home/u/.ssh" [] [] ["id_ecdsa", "id_dsa"] =
      installLoop envPermDenied "/home/u/.ssh" [] [] ["id_dsa"] :=
  ⟨(C9_fileExists_conservative envPermDenied "/home/u/.ssh/id_ecdsa").1
      (by decide),
    (C9_fileExists_conservative envPermDenied "/home/u/.ssh/id_ecdsa").2.1,
    (C9_fileExists_conservative envPermDenied
        ("/home/u" ++ "/.ssh" ++ "/" ++ "id_ecdsa")).2.2
      "/home/u/.ssh" [] [] "id_ecdsa" ["id_dsa"] (by decide) (by decide)⟩

/-- C2: the candidate basenames are evaluated in the fixed order
"id_ecdsa" then "id_dsa"; when the head candidate's private path does
not exist the installer writes the pair to that slot, returns that
write's result as the result of the whole call, and every attempted
write targets that slot's two paths only. -/
theorem C2_first_free_wins (env : Env) (dir : String) (pem cert : Bytes)
    (c : String) (rest : List String)
    (hfree : fileExists env (dir ++ "/" ++ c) = false) :
    defaultSSHKeyFilenames = ["id_ecdsa", "id_dsa"] ∧
    installLoop env dir pem cert (c :: rest) =
      writeKeys env (dir ++ "/" ++ c) ((dir ++ "/" ++ c) ++ ".pub") pem cert ∧
    ∀ ev ∈ (installLoop env dir pem cert (c :: rest)).1,
      ev.path = dir ++ "/" ++ c ∨ ev.path = (dir ++ "/" ++ c) ++ ".pub" := by
  have hwrite : installLoop env dir pem cert (c :: rest) =
      writeKeys env (dir ++ "/" ++ c) ((dir ++ "/" ++ c) ++ ".pub") pem cert := by
    simp [installLoop, hfree]
  refine ⟨rfl, hwrite, ?_⟩
  rw [hwrite]
  exact writeKeys_paths env (dir ++ "/" ++ c) ((dir ++ "/" ++ c) ++ ".pub")
    pem cert

/-- C2 witness: with no file existing, the loop writes to the id_ecdsa
slot and returns that write's result. -/
theorem C2_first_free_wins_witness :
    installLoop okEnv "/home/u/.ssh" "K".data "C".data ["id_ecdsa", "id_dsa"] =
      writeKeys okEnv ("/home/u/.ssh" ++ "/" ++ "id_ecdsa")
        (("/home/u/.ssh" ++ "/" ++ "id_ecdsa") ++ ".pub") "K".data "C".data :=
  (C2_first_free_wins okEnv "/home/u/.ssh" "K".data "C".data "id_ecdsa"
    ["id_dsa"] (by decide)).2.1

/-- C3: when both writes succeed, the private blob is written to the
private path with mode 0600 — owner read/write, no group or other
bits — and the public blob to the public path with the world-readable
mode 0777. -/
theorem C3_write_modes (env : Env) (sp pp : String) (pem cert : Bytes)
    (hsp : env.writeRes sp = none) (hpp : env.writeRes pp = none) :
    writeKeys env sp pp pem cert =
      ([⟨sp, pem, 0o600⟩, ⟨pp, cert ++ (" openpubkey").data, 0o777⟩],
        Except.ok ()) ∧
    ownerBits 0o600 = 6 ∧ groupBits 0o600 = 0 ∧ otherBits 0o600 = 0 ∧
    4 ≤ otherBits 0o777 := by
  exact ⟨by simp [writeKeys, hsp, hpp], by decide, by decide, by decide,
    by decide⟩

/-- C3 witness: concrete successful write of both files. -/
theorem C3_write_modes_witness :
    writeKeys okEnv "/home/u/.ssh/id_ecdsa" "/home/u/.ssh/id_ecdsa.pub"
        "K".data "C".data =
      ([⟨"/home/u/.ssh/id_ecdsa", "K".data, 0o600⟩,
        ⟨"/home/u/.ssh/id_ecdsa.pub", "C".data ++ (" openpubkey").data, 0o777⟩],
        Except.ok ()) ∧
    ownerBits 0o600 = 6 ∧ groupBits 0o600 = 0 ∧ otherBits 0o600 = 0 ∧
    4 ≤ otherBits 0o777 :=
  C3_write_modes okEnv "/home/u/.ssh/id_ecdsa" "/home/u/.ssh/id_ecdsa.pub"
    "K".data "C".data rfl rfl

/-- C4: when every candidate slot is occupied and either orphaned,
unreadable, unparseable, or marked with a foreign comment, the installer
returns the distinct no-free-slot error and its write trace is empty —
no file is created, overwritten, or altered. -/
theorem C4_exhausted_no_mutation (env : Env) (home : String) (pem cert : Bytes)
    (hhome : env.homeDirRes = Except.ok home)
    (hall : ∀ c ∈ defaultSSHKeyFilenames,
      fileExists env ((home ++ "/.ssh") ++ "/" ++ c) = true ∧
      (fileExists env (((home ++ "/.ssh") ++ "/" ++ c) ++ ".pub") = false ∨
        (∃ e, env.readFileRes (((home ++ "/.ssh") ++ "/" ++ c) ++ ".pub") =
          Except.error e) ∨
        (∃ bs e, env.readFileRes (((home ++ "/.ssh") ++ "/" ++ c) ++ ".pub") =
          Except.ok bs ∧ env.parseAuthorizedKeyRes bs = Except.error e) ∨
        (∃ bs cm, env.readFileRes (((home ++ "/.ssh") ++ "/" ++ c) ++ ".pub") =
          Except.ok bs ∧ env.parseAuthorizedKeyRes bs = Except.ok cm ∧
          cm ≠ "openpubkey"))) :
    writeKeysToSSHDir env pem cert =
      ([], Except.error "no default ssh key file free for openpubkey") := by
  have h1 := hall "id_ecdsa" (by simp [defaultSSHKeyFilenames])
  have h2 := hall "id_dsa" (by simp [defaultSSHKeyFilenames])
  unfold writeKeysToSSHDir
  rw [hhome]
  show installLoop env (home ++ "/.ssh") pem cert ["id_ecdsa", "id_dsa"] = _
  rw [installLoop_skip_step env (home ++ "/.ssh") pem cert "id_ecdsa"
    ["id_dsa"] h1.1 h1.2]
  rw [installLoop_skip_step env (home ++ "/.ssh") pem cert "id_dsa"
    [] h2.1 h2.2]
  rfl

/-- C4 witness: both slots carry the foreign comment "Openpubkey", so
the call fails slot-exhausted with an empty write trace. -/
theorem C4_exhausted_no_mutation_witness :
    writeKeysToSSHDir envForeign "K".data "C".data =
      ([], Except.error "no default ssh key file free for openpubkey") :=
  C4_exhausted_no_mutation envForeign "/home/u" "K".data "C".data rfl
    (fun c _ => ⟨rfl, Or.inr (Or.inr (Or.inr
      ⟨"k".data, "Openpubkey", rfl, rfl, by decide⟩))⟩)

/-- C6: in the write step the private key is written first; if that
write fails the public write is never attempted and the call fails with
the underlying I/O error; on private-write success the trace is the
private write followed by the public write; and every `writeKeys` call
the candidate loop makes pairs a private path with that same path plus
".pub". -/
theorem C6_write_order_same_slot (env : Env) :
    (∀ sp pp pem cert e, env.writeRes sp = some e →
      writeKeys env sp pp pem cert =
        ([⟨sp, pem, 0o600⟩], Except.error e)) ∧
    (∀ sp pp pem cert, env.writeRes sp = none →
      (writeKeys env sp pp pem cert).1 =
        [⟨sp, pem, 0o600⟩,
          ⟨pp, cert ++ (" openpubkey").data, 0o777⟩]) ∧
    (∀ dir pem cert cs,
      (∃ c ∈ cs, installLoop env dir pem cert cs =
        writeKeys env (dir ++ "/" ++ c) ((dir ++ "/" ++ c) ++ ".pub")
          pem cert) ∨
      installLoop env dir pem cert cs =
        ([], Except.error "no default ssh key file free for openpubkey")) := by
  refine ⟨fun sp pp pem cert e h => by simp [writeKeys, h],
    fun sp pp pem cert h => ?_, fun dir pem cert cs => installLoop_cases
      env dir pem cert cs⟩
  unfold writeKeys
  rw [h]
  cases h2 : env.writeRes pp <;> simp

/-- C6 witness: a failing private-key write produces exactly one
attempted write and surfaces the underlying error. -/
theorem C6_write_order_same_slot_witness :
    writeKeys envWriteFail "/home/u/.ssh/id_ecdsa" "/home/u/.ssh/id_ecdsa.pub"
        "K".data "C".data =
      ([⟨"/home/u/.ssh/id_ecdsa", "K".data, 0o600⟩],
        Except.error "disk full") ∧
    (writeKeys envWriteFail "/home/u/.ssh/id_dsa" "/home/u/.ssh/id_dsa.pub"
        "K".data "C".data).1 =
      [⟨"/home/u/.ssh/id_dsa", "K".data, 0o600⟩,
        ⟨"/home/u/.ssh/id_dsa.pub", "C".data ++ (" openpubkey").data, 0o777⟩] :=
  ⟨(C6_write_order_same_slot envWriteFail).1 "/home/u/.ssh/id_ecdsa"
      "/home/u/.ssh/id_ecdsa.pub" "K".data "C".data "disk full" (by decide),
    (C6_write_order_same_slot envWriteFail).2.1 "/home/u/.ssh/id_dsa"
      "/home/u/.ssh/id_dsa.pub" "K".data "C".data (by decide)⟩

/-- C7: when the authorized-key encoder output is a newline-terminated
line, `createSSHCert` strips exactly that trailing newline from the
certificate blob, and the public-key file content written by a
successful `writeKeys` is that blob, a single space, and the ownership
marker — one newline-free line. -/
theorem C7_cert_blob_single_line (env : Env) (signer pkt body s sig blk : Nat)
    (alg : String) (gq : Bool) (principals : List String) (line : Bytes)
    (hoidc : env.oidcAuthRes signer alg gq = Except.ok pkt)
    (hnew : env.newCertRes pkt = Except.ok body)
    (hss : env.newSignerFromSignerRes signer = Except.ok s)
    (halg : env.newSignerWithAlgorithmsRes s = Except.ok ())
    (hsign : env.signRes s body [keyAlgoECDSA256] = Except.ok sig)
    (hpem : env.marshalPrivateKeyRes signer "openpubkey cert" = Except.ok blk)
    (hmar : env.marshalAuthorizedKeyRes ⟨principals, body, sig⟩ =
      line ++ ['\n'])
    (hline : '\n' ∉ line) :
    createSSHCert env signer alg gq principals =
      Except.ok (⟨principals, body, sig⟩, line, env.pemEncodeRes blk) ∧
    (∀ sp pp pem, env.writeRes sp = none →
      (writeKeys env sp pp pem line).1.map WriteEvent.data =
        [pem, line ++ " ".data ++ ownershipMarker.data]) ∧
    '\n' ∉ line ++ " ".data ++ ownershipMarker.data := by
  refine ⟨?_, ?_, ?_⟩
  · simp only [createSSHCert, newSignerWithAlgorithms, signCert, hoidc, hnew,
      hss, halg, hsign, hpem, hmar]
    rw [take_length_sub_one_append]
  · intro sp pp pem h
    unfold writeKeys
    rw [h]
    have hmark : (" openpubkey").data = " ".data ++ ownershipMarker.data := by
      decide
    cases h2 : env.writeRes pp <;> simp [hmark, ownershipMarker]
  · intro hmem
    rcases List.mem_append.mp hmem with hm | hm
    · rcases List.mem_append.mp hm with hm2 | hm2
      · exact hline hm2
      · revert hm2
        decide
    · revert hm
      decide

/-- C7 witness: concrete run in which the encoder emits "cert\n"; the
blob is "cert" and the public data is "cert openpubkey". -/
theorem C7_cert_blob_single_line_witness :
    createSSHCert okEnv 1 "ES256" false [] =
      Except.ok (⟨[], 3, 5⟩, "cert".data, okEnv.pemEncodeRes 6) ∧
    (∀ sp pp pem, okEnv.writeRes sp = none →
      (writeKeys okEnv sp pp pem "cert".data).1.map WriteEvent.data =
        [pem, "cert".data ++ " ".data ++ ownershipMarker.data]) ∧
    '\n' ∉ "cert".data ++ " ".data ++ ownershipMarker.data :=
  C7_cert_blob_single_line okEnv 1 2 3 4 5 6 "ES256" false [] "cert".data
    rfl rfl rfl rfl rfl rfl rfl (by decide)

/-- C8: the certificate signer is restricted to the single explicit
algorithm "ecdsa-sha2-nistp256" (the P-256 algorithm matching the ES256
keypair); the restricted signer advertises exactly that one-element
list, and a signing failure propagates to a `Login` failure. -/
theorem C8_single_signature_algorithm (env : Env) (signer pkt body s : Nat)
    (e : String)
    (hgen : env.genKeyPairRes es256 = Except.ok signer)
    (hoidc : env.oidcAuthRes signer es256 false = Except.ok pkt)
    (hnew : env.newCertRes pkt = Except.ok body)
    (hss : env.newSignerFromSignerRes signer = Except.ok s)
    (halg : env.newSignerWithAlgorithmsRes s = Except.ok ())
    (hfail : env.signRes s body [keyAlgoECDSA256] = Except.error e) :
    keyAlgoECDSA256 = "ecdsa-sha2-nistp256" ∧
    [keyAlgoECDSA256].length = 1 ∧
    (∀ sm, newSignerWithAlgorithms env s [keyAlgoECDSA256] = Except.ok sm →
      sm.algs = [keyAlgoECDSA256]) ∧
    createSSHCert env signer es256 false loginPrincipals = Except.error e ∧
    Login env = ([], Except.error ("failed to generate SSH cert: " ++ e)) := by
  have hcert : createSSHCert env signer es256 false loginPrincipals =
      Except.error e := by
    simp only [createSSHCert, newSignerWithAlgorithms, signCert, hoidc, hnew,
      hss, halg, hfail]
  refine ⟨rfl, rfl, ?_, hcert, ?_⟩
  · intro sm hsm
    simp only [newSignerWithAlgorithms, halg] at hsm
    cases hsm
    rfl
  · simp only [Login, hgen, hcert]

/-- C8 witness: concrete run whose signer refuses to sign; the login
fails with the wrapped signing error. -/
theorem C8_single_signature_algorithm_witness :
    keyAlgoECDSA256 = "ecdsa-sha2-nistp256" ∧
    [keyAlgoECDSA256].length = 1 ∧
    (∀ sm, newSignerWithAlgorithms envSignFail 4 [keyAlgoECDSA256] =
      Except.ok sm → sm.algs = [keyAlgoECDSA256]) ∧
    createSSHCert envSignFail 1 es256 false loginPrincipals =
      Except.error "signing denied" ∧
    Login envSignFail =
      ([], Except.error
        ("failed to generate SSH cert: " ++ "signing denied")) :=
  C8_single_signature_algorithm envSignFail 1 2 3 4 "signing denied"
    rfl rfl rfl rfl rfl rfl

/-- C10: the principal list of `Login` is hardcoded empty, and every
certificate successfully produced through it carries an empty principal
list. -/
theorem C10_principals_hardcoded_empty (env : Env) (signer : Nat)
    (cert : SignedCert) (cb pem : Bytes)
    (h : createSSHCert env signer es256 false loginPrincipals =
      Except.ok (cert, cb, pem)) :
    loginPrincipals = [] ∧ cert.principals = [] := by
  refine ⟨rfl, ?_⟩
  rcases createSSHCert_shape env signer es256 false loginPrincipals with
    ⟨e, he⟩ | ⟨body, sig, cb2, pem2, he⟩
  · rw [he] at h
    exact Except.noConfusion h
  · rw [he] at h
    injection h with h2
    have hc := congrArg (fun t => t.1.principals) h2
    simpa [loginPrincipals] using hc.symm

/-- C10 witness: the all-success environment yields a certificate with
an empty principal list. -/
theorem C10_principals_hardcoded_empty_witness :
    loginPrincipals = [] ∧ (⟨[], 3, 5⟩ : SignedCert).principals = [] :=
  C10_principals_hardcoded_empty okEnv 1 ⟨[], 3, 5⟩ "cert".data "PEM".data rfl

end Opkssh
